import Mathlib

/-!
Verification of the budget & budget-group aggregation engine of the Spendly
backend (`src/backend/app`), shallowly embedded in Lean.

Conventions of the embedding:
* SQL `Date` columns become `Int` (days since an arbitrary epoch); all the
  source consults is their linear order.
* String-encoded decimal columns (`amount`, `alert_threshold`,
  `amount_in_base_currency`) become exact rationals `ℚ`.
* UUID primary keys become `Nat`; nothing in the verified code inspects
  their structure beyond equality.
* A SQLAlchemy session becomes an explicit list of rows; queries become
  `List.filter`/`List.find?` over it, and `db.add`/mutation becomes a new
  list returned by the operation.
* Python exceptions of the verified operations become `Except`.
-/

namespace Spendly

/-- Embedding of `app/db/models/expense.py`, class `Expense`: the columns
consulted by the budget aggregation engine. -/
structure Expense where
  user_id : Nat
  expense_date : Int
  category_id : Option Nat
  subcategory_id : Option Nat
  amount_in_base_currency : ℚ
  deriving Repr, DecidableEq

/-- Embedding of `app/db/models/budget.py`, class `Budget`. -/
structure Budget where
  id : Nat
  name : String
  amount : ℚ
  currency : String
  period_type : String
  start_date : Int
  end_date : Option Int
  user_id : Nat
  category_id : Option Nat
  budget_group_id : Option Nat
  alert_threshold : ℚ
  is_active : Bool
  deriving Repr, DecidableEq

/-- Embedding of `app/db/models/budget_group.py`, class `BudgetGroup`
(scalar columns; the `budgets` relationship is recovered from the budget
table by filtering on `budget_group_id`). -/
structure BudgetGroup where
  id : Nat
  name : String
  period_type : String
  start_date : Int
  end_date : Int
  currency : String
  user_id : Nat
  is_active : Bool
  deriving Repr, DecidableEq

/-- Embedding of `app/db/models/category.py`, class `Category`: the columns
consulted by budget generation and the category summary. -/
structure Category where
  id : Nat
  name : String
  parent_id : Option Nat
  user_id : Nat
  sort_order : Int
  is_active : Bool
  deriving Repr, DecidableEq

/-- `Category.is_primary_category` (`category.py` line 52): no parent. -/
def Category.is_primary_category (c : Category) : Bool :=
  c.parent_id == none

/-- Resolution of a foreign key to a `categories` row (the ORM relationship
`Budget.category` / `Category.parent`). -/
def findCategory (cats : List Category) (cid : Nat) : Option Category :=
  cats.find? (fun c => c.id == cid)

/-- `Budget.get_spent_amount` (`budget.py` lines 87–104): sum of
`amount_in_base_currency` over the user's expenses with
`expense_date >= start_date`, `expense_date <= end_date` when `end_date`
is set, and `Expense.category_id == self.category_id` when `category_id`
is set.  Note the query never mentions `Expense.subcategory_id`. -/
def Budget.get_spent_amount (b : Budget) (db : List Expense) : ℚ :=
  ((db.filter (fun e =>
      e.user_id == b.user_id &&
      decide (b.start_date ≤ e.expense_date) &&
      (match b.end_date with
       | none => true
       | some d => decide (e.expense_date ≤ d)) &&
      (match b.category_id with
       | none => true
       | some c => e.category_id == some c))).map
    (fun e => e.amount_in_base_currency)).sum

/-- `Budget.get_remaining_amount` (`budget.py` lines 106–109). -/
def Budget.get_remaining_amount (b : Budget) (db : List Expense) : ℚ :=
  b.amount - b.get_spent_amount db

/-- `Budget.get_percentage_used` (`budget.py` lines 111–116): 0 when the
amount is zero, else `spent / amount * 100`. -/
def Budget.get_percentage_used (b : Budget) (db : List Expense) : ℚ :=
  if b.amount = 0 then 0 else b.get_spent_amount db / b.amount * 100

/-- `Budget.is_over_budget` (`budget.py` lines 118–120). -/
def Budget.is_over_budget (b : Budget) (db : List Expense) : Bool :=
  decide (b.get_spent_amount db > b.amount)

/-- `Budget.should_alert` (`budget.py` lines 122–125). -/
def Budget.should_alert (b : Budget) (db : List Expense) : Bool :=
  decide (b.get_percentage_used db ≥ b.alert_threshold)

/-- `Budget.get_status` (`budget.py` lines 127–134). -/
def Budget.get_status (b : Budget) (db : List Expense) : String :=
  if b.is_over_budget db then "over_budget"
  else if b.should_alert db then "warning"
  else "on_track"

/-- The three-disjunct date condition of
`CRUDBudgetGroup.get_overlapping_groups` (`crud_budget_group.py`
lines 423–436), with `gs`/`ge` the stored group's `start_date`/`end_date`
and `s`/`e` the queried range. -/
def overlap_date_cond (gs ge s e : Int) : Bool :=
  (decide (gs ≤ s) && decide (ge ≥ s)) ||
  (decide (gs ≤ e) && decide (ge ≥ e)) ||
  (decide (gs ≥ s) && decide (ge ≤ e))

/-- `CRUDBudgetGroup.get_overlapping_groups` (`crud_budget_group.py`
lines 409–443). -/
def get_overlapping_groups (groups : List BudgetGroup) (user_id : Nat)
    (start_date end_date : Int) (exclude_id : Option Nat) : List BudgetGroup :=
  groups.filter (fun g =>
    g.user_id == user_id && g.is_active &&
    overlap_date_cond g.start_date g.end_date start_date end_date &&
    (match exclude_id with
     | none => true
     | some x => g.id != x))

/-- A sample budget used to instantiate hypotheses of proved theorems. -/
def sampleBudget : Budget :=
  { id := 0, name := "b", amount := 10, currency := "EUR",
    period_type := "monthly", start_date := 0, end_date := some 30,
    user_id := 1, category_id := none, budget_group_id := none,
    alert_threshold := 80, is_active := true }

/-- A budget scoped to category 5, for the C1 counterexample. -/
def budgetCat5 : Budget :=
  { id := 1, name := "cat5", amount := 100, currency := "EUR",
    period_type := "monthly", start_date := 0, end_date := some 30,
    user_id := 1, category_id := some 5, budget_group_id := none,
    alert_threshold := 80, is_active := true }

/-- An in-period expense of the same user whose `subcategory_id` (but not
`category_id`) equals category 5. -/
def expenseSub5 : Expense :=
  { user_id := 1, expense_date := 10, category_id := some 4,
    subcategory_id := some 5, amount_in_base_currency := 7 }

/-- C1 fails on the code: `budgetCat5` has `category_id = some 5`, and
`expenseSub5` is an in-period expense of the same user with
`subcategory_id = some 5` and amount 7, yet `get_spent_amount` returns 0 —
the expense's subcategory match is not counted. -/
theorem claim_C1_counterexample :
    budgetCat5.category_id = some 5 ∧
    expenseSub5.subcategory_id = some 5 ∧
    expenseSub5.user_id = budgetCat5.user_id ∧
    budgetCat5.start_date ≤ expenseSub5.expense_date ∧
    budgetCat5.end_date = some 30 ∧ expenseSub5.expense_date ≤ 30 ∧
    expenseSub5.amount_in_base_currency = 7 ∧
    budgetCat5.get_spent_amount [expenseSub5] = 0 := by
  refine ⟨rfl, rfl, rfl, by decide, rfl, by decide, rfl, ?_⟩
  simp [Budget.get_spent_amount, budgetCat5, expenseSub5]

/-- C1 amended: for a budget with `category_id` set, the spent amount counts
only expenses whose `category_id` equals that id; the `subcategory_id`
column is never consulted, so rewriting every expense's `subcategory_id`
arbitrarily leaves the spent amount unchanged, while an expense is counted
exactly when the user matches, the date lies in the period, and its
`category_id` equals the budget's. -/
theorem claim_C1_amended (b : Budget) (db : List Expense)
    (f : Expense → Option Nat) :
    b.get_spent_amount (db.map (fun e => { e with subcategory_id := f e })) =
      b.get_spent_amount db ∧
    (∀ e : Expense, b.get_spent_amount [e] =
      if e.user_id = b.user_id ∧ b.start_date ≤ e.expense_date ∧
         (∀ d, b.end_date = some d → e.expense_date ≤ d) ∧
         (∀ c, b.category_id = some c → e.category_id = some c)
      then e.amount_in_base_currency else 0) := by
  constructor
  · induction db with
    | nil => rfl
    | cons e t ih =>
      simp only [List.map_cons, Budget.get_spent_amount, List.filter_cons] at *
      cases hend : b.end_date <;> cases hcat : b.category_id <;>
        simp_all <;> split <;> simp_all
  · intro e
    simp only [Budget.get_spent_amount, List.filter_cons, List.filter_nil]
    cases hend : b.end_date <;> cases hcat : b.category_id <;>
      simp <;> split_ifs <;> simp_all

/-- C2: the status classifier of `Budget.get_status` is total (always one of
the three strings), `over_budget` exactly when spent exceeds amount (taking
precedence over `warning`), `warning` exactly when not over budget and the
percentage used (0 for a zero amount) reaches the alert threshold, else
`on_track`; in particular a zero-amount budget is `over_budget` for any
positive spend and `on_track` for zero spend. -/
theorem claim_C2_status_classifier (b : Budget) (db : List Expense)
    (hamt : 0 ≤ b.amount) (hsp : 0 ≤ b.get_spent_amount db)
    (hth₀ : 0 < b.alert_threshold) (hth₁ : b.alert_threshold ≤ 100) :
    (b.get_status db = "over_budget" ∨ b.get_status db = "warning" ∨
      b.get_status db = "on_track") ∧
    (b.get_status db = "over_budget" ↔ b.get_spent_amount db > b.amount) ∧
    (b.get_status db = "warning" ↔
      (b.get_spent_amount db ≤ b.amount ∧
       b.get_percentage_used db ≥ b.alert_threshold)) ∧
    (b.get_status db = "on_track" ↔
      (b.get_spent_amount db ≤ b.amount ∧
       b.get_percentage_used db < b.alert_threshold)) ∧
    (b.amount = 0 → 0 < b.get_spent_amount db →
      b.get_status db = "over_budget") ∧
    (b.amount = 0 → b.get_spent_amount db = 0 →
      b.get_status db = "on_track") := by
  have hpz : b.amount = 0 → b.get_percentage_used db = 0 := by
    intro h; simp [Budget.get_percentage_used, h]
  by_cases hov : b.get_spent_amount db > b.amount
  · have hst : b.get_status db = "over_budget" := by
      simp [Budget.get_status, Budget.is_over_budget, hov]
    rw [hst]
    exact ⟨Or.inl rfl,
      iff_of_true rfl hov,
      iff_of_false (by decide) (fun h => absurd hov (not_lt.mpr h.1)),
      iff_of_false (by decide) (fun h => absurd hov (not_lt.mpr h.1)),
      fun _ _ => rfl,
      fun h0 hs0 => absurd hov (by rw [h0, hs0]; exact lt_irrefl 0)⟩
  · by_cases hal : b.get_percentage_used db ≥ b.alert_threshold
    · have hst : b.get_status db = "warning" := by
        simp [Budget.get_status, Budget.is_over_budget, Budget.should_alert,
          hov, hal]
      rw [hst]
      exact ⟨Or.inr (Or.inl rfl),
        iff_of_false (by decide) hov,
        iff_of_true rfl ⟨not_lt.mp hov, hal⟩,
        iff_of_false (by decide) (fun h => absurd hal (not_le.mpr h.2)),
        fun h0 hs0 => absurd
          (show b.get_spent_amount db > b.amount by rw [h0]; exact hs0) hov,
        fun h0 _ => absurd hth₀ (not_lt.mpr (hpz h0 ▸ hal))⟩
    · have hst : b.get_status db = "on_track" := by
        simp [Budget.get_status, Budget.is_over_budget, Budget.should_alert,
          hov, hal]
      rw [hst]
      exact ⟨Or.inr (Or.inr rfl),
        iff_of_false (by decide) hov,
        iff_of_false (by decide) (fun h => hal h.2),
        iff_of_true rfl ⟨not_lt.mp hov, not_le.mp hal⟩,
        fun h0 hs0 => absurd
          (show b.get_spent_amount db > b.amount by rw [h0]; exact hs0) hov,
        fun _ _ => rfl⟩

/-- Witness for C2 at a concrete budget with amount 10, threshold 80 and no
expenses. -/
theorem claim_C2_status_classifier_witness :
    (sampleBudget.get_status [] = "over_budget" ∨
      sampleBudget.get_status [] = "warning" ∨
      sampleBudget.get_status [] = "on_track") ∧
    (sampleBudget.get_status [] = "over_budget" ↔
      sampleBudget.get_spent_amount [] > sampleBudget.amount) ∧
    (sampleBudget.get_status [] = "warning" ↔
      (sampleBudget.get_spent_amount [] ≤ sampleBudget.amount ∧
       sampleBudget.get_percentage_used [] ≥ sampleBudget.alert_threshold)) ∧
    (sampleBudget.get_status [] = "on_track" ↔
      (sampleBudget.get_spent_amount [] ≤ sampleBudget.amount ∧
       sampleBudget.get_percentage_used [] < sampleBudget.alert_threshold)) ∧
    (sampleBudget.amount = 0 → 0 < sampleBudget.get_spent_amount [] →
      sampleBudget.get_status [] = "over_budget") ∧
    (sampleBudget.amount = 0 → sampleBudget.get_spent_amount [] = 0 →
      sampleBudget.get_status [] = "on_track") :=
  claim_C2_status_classifier sampleBudget []
    (by norm_num [sampleBudget])
    (by norm_num [Budget.get_spent_amount])
    (by norm_num [sampleBudget])
    (by norm_num [sampleBudget])

/-- C3: on valid closed intervals the three-disjunct date condition of
`get_overlapping_groups` (existing period `[s2,e2]` against queried period
`[s1,e1]`) is exactly `s1 ≤ e2 ∧ s2 ≤ e1`; hence it is symmetric, every
period overlaps itself, `[1,5]` and `[5,10]` overlap (touching endpoints),
and `[1,5]` and `[6,10]` do not. -/
theorem claim_C3_overlap_condition (s1 e1 s2 e2 : Int)
    (h1 : s1 ≤ e1) (h2 : s2 ≤ e2) :
    (overlap_date_cond s2 e2 s1 e1 = true ↔ (s1 ≤ e2 ∧ s2 ≤ e1)) ∧
    overlap_date_cond s2 e2 s1 e1 = overlap_date_cond s1 e1 s2 e2 ∧
    overlap_date_cond s1 e1 s1 e1 = true ∧
    overlap_date_cond (5 : Int) 10 1 5 = true ∧
    overlap_date_cond (1 : Int) 5 5 10 = true ∧
    overlap_date_cond (6 : Int) 10 1 5 = false ∧
    overlap_date_cond (1 : Int) 5 6 10 = false := by
  refine ⟨?_, ?_, ?_, by decide, by decide, by decide, by decide⟩
  · simp only [overlap_date_cond, Bool.or_eq_true, Bool.and_eq_true,
      decide_eq_true_eq, ge_iff_le]
    omega
  · rw [Bool.eq_iff_iff]
    simp only [overlap_date_cond, Bool.or_eq_true, Bool.and_eq_true,
      decide_eq_true_eq, ge_iff_le]
    omega
  · simp only [overlap_date_cond, Bool.or_eq_true, Bool.and_eq_true,
      decide_eq_true_eq, ge_iff_le]
    omega

/-- Embedding of `app/schemas/budget.py`, class `BudgetCreate` (payload
fields; the pydantic validators are not involved in the claims below). -/
structure BudgetCreate where
  name : String
  amount : ℚ
  currency : String
  period_type : String
  start_date : Int
  end_date : Option Int
  category_id : Option Nat
  budget_group_id : Option Nat
  alert_threshold : ℚ
  is_active : Bool
  deriving Repr, DecidableEq

/-- The budget row inserted by `CRUDBudget.create_for_user`
(`crud_budget.py` lines 104–116); `new_id` stands for the generated
UUID primary key. -/
def budgetOfCreate (user_id : Nat) (obj_in : BudgetCreate) (new_id : Nat) :
    Budget :=
  { id := new_id, name := obj_in.name, amount := obj_in.amount,
    currency := obj_in.currency, period_type := obj_in.period_type,
    start_date := obj_in.start_date, end_date := obj_in.end_date,
    user_id := user_id, category_id := obj_in.category_id,
    budget_group_id := obj_in.budget_group_id,
    alert_threshold := obj_in.alert_threshold,
    is_active := obj_in.is_active }

/-- `CRUDBudget.create_for_user` (`crud_budget.py` lines 86–120): builds the
row and commits it.  The function performs no checks of any kind (in
particular no period-overlap check) and never raises; the result is the new
budget table. -/
def create_for_user (st : List Budget) (user_id : Nat)
    (obj_in : BudgetCreate) (new_id : Nat) : List Budget :=
  st ++ [budgetOfCreate user_id obj_in new_id]

/-- Embedding of `app/schemas/budget_group.py`, class
`GenerateBudgetsRequest`. -/
structure GenerateBudgetsRequest where
  category_scope : String
  default_amount : ℚ
  include_inactive_categories : Bool
  deriving Repr, DecidableEq

/-- Embedding of `app/schemas/budget_group.py`, class
`CategoryBudgetConfig`. -/
structure CategoryBudgetConfig where
  category_id : Nat
  amount : ℚ
  deriving Repr, DecidableEq

/-- The scope filter of `_generate_budgets_for_group`
(`crud_budget_group.py` lines 148–152). -/
def category_in_scope (scope : String) (c : Category) : Bool :=
  if scope == "primary" then c.parent_id == none
  else if scope == "subcategories" then c.parent_id != none
  else true

/-- Comparison behind `order_by(Category.sort_order.asc(), Category.name.asc())`
(`crud_budget_group.py` line 154). -/
def catLE (a b : Category) : Bool :=
  decide (a.sort_order < b.sort_order) ||
  (a.sort_order == b.sort_order && decide (a.name ≤ b.name))

/-- Insertion into a list sorted by `le`. -/
def insertByLE (le : Category → Category → Bool) (x : Category) :
    List Category → List Category
  | [] => [x]
  | y :: t => if le x y then x :: y :: t else y :: insertByLE le x t

/-- Insertion sort by `le` (the embedding of the SQL `ORDER BY`). -/
def sortByLE (le : Category → Category → Bool) (l : List Category) :
    List Category :=
  l.foldr (insertByLE le) []

/-- The category selection of `_generate_budgets_for_group`
(`crud_budget_group.py` lines 144–154): the user's categories, only active
ones unless `include_inactive`, restricted to the scope, ordered by
`(sort_order, name)`. -/
def categoriesForGeneration (cats : List Category) (user_id : Nat)
    (category_scope : String) (include_inactive : Bool) : List Category :=
  sortByLE catLE (cats.filter (fun c =>
    c.user_id == user_id && (include_inactive || c.is_active) &&
    category_in_scope category_scope c))

/-- The existence check of `_generate_budgets_for_group`
(`crud_budget_group.py` lines 170–180): an *active* budget of this user in
this group for this category. -/
def budget_exists_for (st : List Budget) (user_id group_id cat_id : Nat) :
    Bool :=
  st.any (fun b =>
    b.user_id == user_id && b.budget_group_id == some group_id &&
    b.category_id == some cat_id && b.is_active)

/-- The per-category amount of `_generate_budgets_for_group`
(`crud_budget_group.py` lines 162–166 and 185): the amount of the last
config for the category if any, else the default. -/
def config_amount (category_configs : List CategoryBudgetConfig)
    (cat_id : Nat) (default_amount : ℚ) : ℚ :=
  match category_configs.reverse.find? (fun cfg => cfg.category_id == cat_id) with
  | some cfg => cfg.amount
  | none => default_amount

/-- The budget row created by the generation loop (`crud_budget_group.py`
lines 187–199): name, period and currency inherited from the group,
threshold 80, active; `id := 0` stands for the generated UUID, which no
verified code inspects. -/
def generated_budget (budget_group : BudgetGroup) (user_id : Nat)
    (cat : Category) (amount : ℚ) : Budget :=
  { id := 0, name := cat.name, amount := amount,
    currency := budget_group.currency,
    period_type := budget_group.period_type,
    start_date := budget_group.start_date,
    end_date := some budget_group.end_date,
    user_id := user_id, category_id := some cat.id,
    budget_group_id := some budget_group.id,
    alert_threshold := 80, is_active := true }

/-- One iteration of the generation loop (`crud_budget_group.py`
lines 169–201): skip if a budget exists, else add the new budget row. -/
def generate_step (budget_group : BudgetGroup) (user_id : Nat)
    (category_configs : List CategoryBudgetConfig) (default_amount : ℚ)
    (acc : List Budget × Nat) (cat : Category) : List Budget × Nat :=
  if budget_exists_for acc.1 user_id budget_group.id cat.id then acc
  else
    (acc.1 ++ [generated_budget budget_group user_id cat
        (config_amount category_configs cat.id default_amount)],
     acc.2 + 1)

/-- `CRUDBudgetGroup._generate_budgets_for_group` (`crud_budget_group.py`
lines 132–204): raises `ValueError` when the default amount is not
positive, else runs the generation loop and returns the new budget table
with the created count. -/
def generate_budgets_for_group (st : List Budget)
    (budget_group : BudgetGroup) (user_id : Nat) (cats : List Category)
    (category_scope : String) (default_amount : ℚ)
    (include_inactive : Bool)
    (category_configs : List CategoryBudgetConfig) :
    Except String (List Budget × Nat) :=
  if default_amount ≤ 0 then
    .error "Default amount must be greater than 0"
  else
    .ok ((categoriesForGeneration cats user_id category_scope
        include_inactive).foldl
      (generate_step budget_group user_id category_configs default_amount)
      (st, 0))

/-- `CRUDBudgetGroup.generate_budgets` (`crud_budget_group.py`
lines 206–225): looks the group up by id, returns 0 when it is missing or
belongs to another user, else generates (with no per-category configs). -/
def generate_budgets (groups : List BudgetGroup) (st : List Budget)
    (cats : List Category) (budget_group_id user_id : Nat)
    (request : GenerateBudgetsRequest) : Except String (List Budget × Nat) :=
  match groups.find? (fun g => g.id == budget_group_id) with
  | none => .ok (st, 0)
  | some g =>
    if g.user_id != user_id then .ok (st, 0)
    else generate_budgets_for_group st g user_id cats
      request.category_scope request.default_amount
      request.include_inactive_categories []

/-- Embedding of `app/schemas/budget_group.py`, class
`BulkBudgetUpdateItem`. -/
structure BulkBudgetUpdateItem where
  budget_id : Option Nat
  category_id : Option Nat
  amount : ℚ
  deriving Repr, DecidableEq

/-- The row filter an item of `bulk_update_amounts` resolves with
(`crud_budget_group.py` lines 242–254): by `budget_id` if given, else by
`category_id`, else no query is made. -/
def bulk_item_pred (user_id budget_group_id : Nat)
    (item : BulkBudgetUpdateItem) : Option (Budget → Bool) :=
  match item.budget_id with
  | some bid => some (fun b =>
      b.id == bid && b.user_id == user_id &&
      b.budget_group_id == some budget_group_id)
  | none =>
    match item.category_id with
    | some cid => some (fun b =>
        b.user_id == user_id && b.budget_group_id == some budget_group_id &&
        b.category_id == some cid)
    | none => none

/-- Assigning the new amount to the first row matching `p` (`.first()`
followed by the mutation `budget.amount = str(item.amount)`). -/
def set_amount_first (p : Budget → Bool) (a : ℚ) :
    List Budget → List Budget
  | [] => []
  | b :: t => if p b then { b with amount := a } :: t
      else b :: set_amount_first p a t

/-- One iteration of the bulk-update loop (`crud_budget_group.py`
lines 237–259): skip negative amounts, skip unresolvable items, else
update the resolved budget's amount and count it. -/
def bulk_step (user_id budget_group_id : Nat) (acc : List Budget × Nat)
    (item : BulkBudgetUpdateItem) : List Budget × Nat :=
  if item.amount < 0 then acc
  else
    match bulk_item_pred user_id budget_group_id item with
    | none => acc
    | some p =>
      match acc.1.find? p with
      | none => acc
      | some _ => (set_amount_first p item.amount acc.1, acc.2 + 1)

/-- `CRUDBudgetGroup.bulk_update_amounts` (`crud_budget_group.py`
lines 227–261). -/
def bulk_update_amounts (st : List Budget) (user_id budget_group_id : Nat)
    (items : List BulkBudgetUpdateItem) : List Budget × Nat :=
  items.foldl (bulk_step user_id budget_group_id) (st, 0)

/-- Whether an item resolves to a budget of the group in table `st`. -/
def bulk_item_resolvable (st : List Budget) (user_id budget_group_id : Nat)
    (item : BulkBudgetUpdateItem) : Bool :=
  match bulk_item_pred user_id budget_group_id item with
  | none => false
  | some p => (st.find? p).isSome

/-- Witness for C3 at the intervals `[0,2]` and `[1,3]`. -/
theorem claim_C3_overlap_condition_witness :
    (overlap_date_cond 1 3 0 2 = true ↔ ((0 : Int) ≤ 3 ∧ (1 : Int) ≤ 2)) ∧
    overlap_date_cond 1 3 0 2 = overlap_date_cond 0 2 1 3 ∧
    overlap_date_cond 0 2 0 2 = true ∧
    overlap_date_cond (5 : Int) 10 1 5 = true ∧
    overlap_date_cond (1 : Int) 5 5 10 = true ∧
    overlap_date_cond (6 : Int) 10 1 5 = false ∧
    overlap_date_cond (1 : Int) 5 6 10 = false :=
  claim_C3_overlap_condition 0 2 1 3 (by decide) (by decide)

/-- An active budget of the group for a category stays present when the
budget table only grows. -/
theorem budget_exists_for_append (st l : List Budget) (u g c : Nat)
    (h : budget_exists_for st u g c = true) :
    budget_exists_for (st ++ l) u g c = true := by
  simp only [budget_exists_for, List.any_append, Bool.or_eq_true]
  exact Or.inl h

/-- The generation loop only appends to the budget table. -/
theorem generate_fold_grows (bg : BudgetGroup) (uid : Nat)
    (cfgs : List CategoryBudgetConfig) (damt : ℚ) :
    ∀ (cs : List Category) (acc : List Budget × Nat),
      ∃ l, (cs.foldl (generate_step bg uid cfgs damt) acc).1 = acc.1 ++ l := by
  intro cs
  induction cs with
  | nil => exact fun acc => ⟨[], by simp⟩
  | cons c t ih =>
    intro acc
    simp only [List.foldl_cons]
    rcases ih (generate_step bg uid cfgs damt acc c) with ⟨l, hl⟩
    by_cases h : budget_exists_for acc.1 uid bg.id c.id
    · exact ⟨l, by simpa [generate_step, h] using hl⟩
    · refine ⟨generated_budget bg uid c (config_amount cfgs c.id damt) :: l, ?_⟩
      rw [hl]
      simp [generate_step, h]

/-- After the generation loop, every processed category has an active
budget in the group: it either already had one (and the table only grows)
or one was just created for it. -/
theorem generate_fold_covers (bg : BudgetGroup) (uid : Nat)
    (cfgs : List CategoryBudgetConfig) (damt : ℚ) :
    ∀ (cs : List Category) (acc : List Budget × Nat), ∀ c ∈ cs,
      budget_exists_for (cs.foldl (generate_step bg uid cfgs damt) acc).1
        uid bg.id c.id = true := by
  intro cs
  induction cs with
  | nil => intro acc c hc; cases hc
  | cons c0 t ih =>
    intro acc c hc
    simp only [List.foldl_cons]
    rcases List.mem_cons.mp hc with rfl | hc
    · rcases generate_fold_grows bg uid cfgs damt t
        (generate_step bg uid cfgs damt acc c) with ⟨l, hl⟩
      rw [hl]
      apply budget_exists_for_append
      by_cases h : budget_exists_for acc.1 uid bg.id c.id
      · simpa [generate_step, h] using h
      · rw [show (generate_step bg uid cfgs damt acc c).1 =
            acc.1 ++ [generated_budget bg uid c (config_amount cfgs c.id damt)] by
              simp [generate_step, h]]
        simp [budget_exists_for, List.any_append, generated_budget]
    · exact ih (generate_step bg uid cfgs damt acc c0) c hc

/-- When every processed category already has an active budget in the
group, the generation loop is the identity and creates nothing. -/
theorem generate_fold_skips (bg : BudgetGroup) (uid : Nat)
    (cfgs : List CategoryBudgetConfig) (damt : ℚ) :
    ∀ (cs : List Category) (st : List Budget) (n : Nat),
      (∀ c ∈ cs, budget_exists_for st uid bg.id c.id = true) →
      cs.foldl (generate_step bg uid cfgs damt) (st, n) = (st, n) := by
  intro cs
  induction cs with
  | nil => intro st n _; rfl
  | cons c t ih =>
    intro st n h
    simp only [List.foldl_cons]
    have hc := h c (List.mem_cons_self c t)
    rw [show generate_step bg uid cfgs damt (st, n) c = (st, n) by
      simp [generate_step, hc]]
    exact ih st n (fun c' hc' => h c' (List.mem_cons_of_mem _ hc'))

/-- C5: budget generation is idempotent — any category that already has an
active budget in the group is skipped and not counted, so re-running
`_generate_budgets_for_group` with identical arguments on the state the
first run produced creates 0 budgets and leaves the table unchanged. -/
theorem claim_C5_generation_idempotent (st : List Budget)
    (bg : BudgetGroup) (uid : Nat) (cats : List Category) (scope : String)
    (damt : ℚ) (incl : Bool) (cfgs : List CategoryBudgetConfig)
    (st1 : List Budget) (n : Nat)
    (h : generate_budgets_for_group st bg uid cats scope damt incl cfgs =
      .ok (st1, n)) :
    generate_budgets_for_group st1 bg uid cats scope damt incl cfgs =
      .ok (st1, 0) := by
  unfold generate_budgets_for_group at h ⊢
  by_cases hd : damt ≤ 0
  · simp [hd] at h
  · simp only [hd, if_false] at h ⊢
    have hfold : (categoriesForGeneration cats uid scope incl).foldl
        (generate_step bg uid cfgs damt) (st, 0) = (st1, n) := by
      simpa using h
    have hcov : ∀ c ∈ categoriesForGeneration cats uid scope incl,
        budget_exists_for st1 uid bg.id c.id = true := by
      intro c hc
      have := generate_fold_covers bg uid cfgs damt
        (categoriesForGeneration cats uid scope incl) (st, 0) c hc
      rwa [hfold] at this
    rw [generate_fold_skips bg uid cfgs damt _ st1 0 hcov]

/-- The sample budget group used for concrete runs. -/
def groupMarch : BudgetGroup :=
  { id := 1, name := "March", period_type := "monthly", start_date := 0,
    end_date := 30, currency := "EUR", user_id := 1, is_active := true }

/-- A single primary category of user 1. -/
def foodCategory : Category :=
  { id := 2, name := "Food", parent_id := none, user_id := 1,
    sort_order := 0, is_active := true }

/-- Witness for C5: generating on an empty table creates one budget for
`foodCategory`; re-running on the resulting table creates 0 and leaves it
unchanged. -/
theorem claim_C5_generation_idempotent_witness :
    generate_budgets_for_group
        [generated_budget groupMarch 1 foodCategory 5]
        groupMarch 1 [foodCategory] "all" 5 false [] =
      .ok ([generated_budget groupMarch 1 foodCategory 5], 0) :=
  claim_C5_generation_idempotent [] groupMarch 1 [foodCategory] "all" 5
    false [] [generated_budget groupMarch 1 foodCategory 5] 1 rfl

/-- The row filter an item resolves with never inspects the amount
column. -/
theorem bulk_item_pred_amount_blind (user_id budget_group_id : Nat)
    (item : BulkBudgetUpdateItem) (p : Budget → Bool)
    (hp : bulk_item_pred user_id budget_group_id item = some p)
    (b : Budget) (a : ℚ) : p { b with amount := a } = p b := by
  unfold bulk_item_pred at hp
  cases hbid : item.budget_id with
  | some bid => rw [hbid] at hp; cases hp; rfl
  | none =>
    rw [hbid] at hp
    cases hcid : item.category_id with
    | some cid => rw [hcid] at hp; cases hp; rfl
    | none => rw [hcid] at hp; cases hp

/-- Updating an amount in place does not change whether a row matching an
amount-blind filter exists. -/
theorem find_isSome_set_amount (q p : Budget → Bool) (a : ℚ)
    (hblind : ∀ b x, p { b with amount := x } = p b) :
    ∀ st : List Budget,
      ((set_amount_first q a st).find? p).isSome = (st.find? p).isSome := by
  intro st
  induction st with
  | nil => rfl
  | cons b t ih =>
    simp only [set_amount_first]
    cases hqb : q b with
    | true =>
      rw [if_pos rfl]
      cases hpb : p b with
      | true =>
        rw [List.find?_cons_of_pos _ (by rw [hblind]; exact hpb),
          List.find?_cons_of_pos _ hpb]
        rfl
      | false =>
        rw [List.find?_cons_of_neg _ (by rw [hblind]; simp [hpb]),
          List.find?_cons_of_neg _ (by simp [hpb])]
    | false =>
      rw [if_neg (by simp)]
      cases hpb : p b with
      | true =>
        rw [List.find?_cons_of_pos _ hpb, List.find?_cons_of_pos _ hpb]
      | false =>
        rw [List.find?_cons_of_neg _ (by simp [hpb]),
          List.find?_cons_of_neg _ (by simp [hpb])]
        exact ih

/-- Whether an item resolves is invariant under the amount update another
item performs. -/
theorem bulk_item_resolvable_set_amount (user_id budget_group_id : Nat)
    (q : Budget → Bool) (a : ℚ) (item : BulkBudgetUpdateItem)
    (st : List Budget) :
    bulk_item_resolvable (set_amount_first q a st) user_id budget_group_id
      item = bulk_item_resolvable st user_id budget_group_id item := by
  unfold bulk_item_resolvable
  cases hp : bulk_item_pred user_id budget_group_id item with
  | none => rfl
  | some p =>
    exact find_isSome_set_amount q p a
      (fun b x =>
        bulk_item_pred_amount_blind user_id budget_group_id item p hp b x)
      st

/-- The bulk-update loop computes the same state and count as the loop run
on only the valid items (non-negative amount, resolving to a budget of the
group in the initial table). -/
theorem bulk_fold_filter (user_id budget_group_id : Nat) :
    ∀ (items : List BulkBudgetUpdateItem) (st : List Budget) (n : Nat),
      items.foldl (bulk_step user_id budget_group_id) (st, n) =
      (items.filter (fun it => decide (0 ≤ it.amount) &&
        bulk_item_resolvable st user_id budget_group_id it)).foldl
          (bulk_step user_id budget_group_id) (st, n) := by
  intro items
  induction items with
  | nil => intro st n; rfl
  | cons it t ih =>
    intro st n
    by_cases hneg : it.amount < 0
    · have h0 : ¬ (0 : ℚ) ≤ it.amount := not_le.mpr hneg
      rw [List.filter_cons, if_neg (by simp [h0]), List.foldl_cons,
        show bulk_step user_id budget_group_id (st, n) it = (st, n) by
          simp [bulk_step, hneg]]
      exact ih st n
    · have h0 : (0 : ℚ) ≤ it.amount := not_lt.mp hneg
      cases hres : bulk_item_resolvable st user_id budget_group_id it with
      | false =>
        have hskip : bulk_step user_id budget_group_id (st, n) it = (st, n) := by
          unfold bulk_item_resolvable at hres
          cases hp : bulk_item_pred user_id budget_group_id it with
          | none => simp [bulk_step, hneg, hp]
          | some p =>
            rw [hp] at hres
            simp only at hres
            have hnone : st.find? p = none := by
              cases hfind : st.find? p with
              | none => rfl
              | some b0 => rw [hfind] at hres; simp at hres
            simp [bulk_step, hneg, hp, hnone]
        rw [List.filter_cons, if_neg (by simp [hres]), List.foldl_cons, hskip]
        exact ih st n
      | true =>
        obtain ⟨p, hp⟩ : ∃ p, bulk_item_pred user_id budget_group_id it = some p := by
          unfold bulk_item_resolvable at hres
          cases hq : bulk_item_pred user_id budget_group_id it with
          | none => rw [hq] at hres; simp at hres
          | some p => exact ⟨p, rfl⟩
        have hfind : (st.find? p).isSome = true := by
          unfold bulk_item_resolvable at hres
          rw [hp] at hres
          exact hres
        obtain ⟨b0, hb0⟩ := Option.isSome_iff_exists.mp hfind
        have hstep : bulk_step user_id budget_group_id (st, n) it =
            (set_amount_first p it.amount st, n + 1) := by
          unfold bulk_step
          rw [if_neg hneg, hp]
          simp only [hb0]
        rw [List.filter_cons, if_pos (by simp [h0, hres]), List.foldl_cons,
          List.foldl_cons, hstep, ih (set_amount_first p it.amount st) (n + 1)]
        congr 1
        apply List.filter_congr
        intro x _
        rw [bulk_item_resolvable_set_amount]

/-- A budget of group 9 / category 5 used in the C6 concrete instance. -/
def budgetGrouped : Budget :=
  { id := 3, name := "X", amount := 100, currency := "EUR",
    period_type := "monthly", start_date := 0, end_date := some 30,
    user_id := 1, category_id := some 5, budget_group_id := some 9,
    alert_threshold := 80, is_active := true }

/-- C6: in `bulk_update_amounts`, items with a negative amount and items
resolving to no budget of the group are silently skipped: the batch
computes exactly what the batch restricted to its valid items computes (so
skipped items add nothing to the count and change no amounts), and in
particular the single item `{category_id := 5, amount := -5}` against a
group containing a category-5 budget yields count 0 with the budget's
amount unchanged. -/
theorem claim_C6_bulk_skips_invalid_items :
    (∀ (st : List Budget) (user_id budget_group_id : Nat)
        (items : List BulkBudgetUpdateItem),
      bulk_update_amounts st user_id budget_group_id items =
        bulk_update_amounts st user_id budget_group_id
          (items.filter (fun it => decide (0 ≤ it.amount) &&
            bulk_item_resolvable st user_id budget_group_id it))) ∧
    bulk_update_amounts [budgetGrouped] 1 9
        [{ budget_id := none, category_id := some 5, amount := -5 }] =
      ([budgetGrouped], 0) := by
  constructor
  · intro st user_id budget_group_id items
    exact bulk_fold_filter user_id budget_group_id items st 0
  · rfl

/-- The `BudgetCreate` payload used by the C7 counterexample: a budget for
category 1 over `[0, 30]`. -/
def bcOverlap : BudgetCreate :=
  { name := "Food budget", amount := 10, currency := "EUR",
    period_type := "monthly", start_date := 0, end_date := some 30,
    category_id := some 1, budget_group_id := none,
    alert_threshold := 80, is_active := true }

/-- C7 fails on the code: creating the same category-1 budget twice through
`create_for_user` succeeds both times — the resulting table holds two
active budgets of the same user and category with identical (hence
overlapping) periods, and neither write was rejected. -/
theorem claim_C7_counterexample :
    create_for_user (create_for_user [] 1 bcOverlap 10) 1 bcOverlap 11 =
      [budgetOfCreate 1 bcOverlap 10, budgetOfCreate 1 bcOverlap 11] ∧
    (budgetOfCreate 1 bcOverlap 10).user_id = 1 ∧
    (budgetOfCreate 1 bcOverlap 11).user_id = 1 ∧
    (budgetOfCreate 1 bcOverlap 10).is_active = true ∧
    (budgetOfCreate 1 bcOverlap 11).is_active = true ∧
    (budgetOfCreate 1 bcOverlap 10).category_id = some 1 ∧
    (budgetOfCreate 1 bcOverlap 11).category_id = some 1 ∧
    (budgetOfCreate 1 bcOverlap 10).start_date = 0 ∧
    (budgetOfCreate 1 bcOverlap 10).end_date = some 30 ∧
    (budgetOfCreate 1 bcOverlap 11).start_date = 0 ∧
    (budgetOfCreate 1 bcOverlap 11).end_date = some 30 ∧
    overlap_date_cond 0 30 0 30 = true := by
  refine ⟨rfl, rfl, rfl, rfl, rfl, rfl, rfl, rfl, rfl, rfl, rfl, by decide⟩

/-- C7 amended: neither `create_budget` nor `create_for_user` performs any
period-overlap check for single budgets (the overlap guard exists only for
budget groups): even when the table already holds an active budget of the
same user with the same category scope whose period overlaps the new one,
the write is accepted unchanged — the new row is appended and every
existing row survives. -/
theorem claim_C7_amended (st : List Budget) (user_id new_id : Nat)
    (obj_in : BudgetCreate) (b : Budget)
    (hb : b ∈ st) (hu : b.user_id = user_id) (ha : b.is_active = true)
    (hc : b.category_id = obj_in.category_id)
    (hov₁ : ∀ d, obj_in.end_date = some d → b.start_date ≤ d)
    (hov₂ : ∀ d, b.end_date = some d → obj_in.start_date ≤ d) :
    create_for_user st user_id obj_in new_id =
      st ++ [budgetOfCreate user_id obj_in new_id] ∧
    budgetOfCreate user_id obj_in new_id ∈
      create_for_user st user_id obj_in new_id ∧
    ∀ x ∈ st, x ∈ create_for_user st user_id obj_in new_id := by
  refine ⟨rfl, ?_, ?_⟩
  · simp [create_for_user]
  · intro x hx
    simp [create_for_user, List.mem_append, hx]

/-- Witness for C7 amended: the overlapping category-1 budget produced by
the first `create_for_user` call does not stop the second. -/
theorem claim_C7_amended_witness :
    create_for_user (create_for_user [] 1 bcOverlap 10) 1 bcOverlap 11 =
      create_for_user [] 1 bcOverlap 10 ++ [budgetOfCreate 1 bcOverlap 11] ∧
    budgetOfCreate 1 bcOverlap 11 ∈
      create_for_user (create_for_user [] 1 bcOverlap 10) 1 bcOverlap 11 ∧
    ∀ x ∈ create_for_user [] 1 bcOverlap 10,
      x ∈ create_for_user (create_for_user [] 1 bcOverlap 10) 1 bcOverlap 11 :=
  claim_C7_amended (create_for_user [] 1 bcOverlap 10) 1 11 bcOverlap
    (budgetOfCreate 1 bcOverlap 10)
    (by simp [create_for_user]) rfl rfl rfl
    (by intro d hd; cases hd; decide)
    (by intro d hd; cases hd; decide)

/-- A budget group owned by user 2, for the C8 counterexample. -/
def groupOfUser2 : BudgetGroup :=
  { id := 1, name := "G", period_type := "monthly", start_date := 0,
    end_date := 30, currency := "EUR", user_id := 2, is_active := true }

/-- The generation request used in the C8 scenarios. -/
def reqAll : GenerateBudgetsRequest :=
  { category_scope := "all", default_amount := 5,
    include_inactive_categories := false }

/-- C8 fails on the code: when the requested group id is owned by another
user (id 1 owned by user 2, requester 3) or does not exist (id 99),
`generate_budgets` completes successfully with `.ok (st, 0)` — no
NotFoundError-style failure is surfaced. -/
theorem claim_C8_counterexample :
    generate_budgets [groupOfUser2] [] [] 1 3 reqAll = .ok ([], 0) ∧
    generate_budgets [groupOfUser2] [] [] 99 3 reqAll = .ok ([], 0) := by
  exact ⟨rfl, rfl⟩

/-- C8 amended: for a `generate_budgets` call whose group id is missing or
belongs to a different user, the operation completes successfully,
creating nothing and returning count 0 (the two cases are indistinguishable
to the caller) rather than surfacing a NotFoundError. -/
theorem claim_C8_amended (groups : List BudgetGroup) (st : List Budget)
    (cats : List Category) (budget_group_id user_id : Nat)
    (request : GenerateBudgetsRequest)
    (h : ∀ g, groups.find? (fun g => g.id == budget_group_id) = some g →
      g.user_id ≠ user_id) :
    generate_budgets groups st cats budget_group_id user_id request =
      .ok (st, 0) := by
  unfold generate_budgets
  cases hf : groups.find? (fun g => g.id == budget_group_id) with
  | none => rfl
  | some g =>
    have hne := h g hf
    simp [bne_iff_ne, hne]

/-- Witness for C8 amended at a group owned by user 2 and requester 3. -/
theorem claim_C8_amended_witness :
    generate_budgets [groupOfUser2] [] [] 1 3 reqAll = .ok ([], 0) :=
  claim_C8_amended [groupOfUser2] [] [] 1 3 reqAll (by
    intro g hg
    have hgeq : groupOfUser2 = g := by
      simpa [List.find?, groupOfUser2] using hg
    rw [← hgeq]
    decide)

/-- `CRUDBudget.get_current_budgets` (`crud_budget.py` lines 56–84): the
user's active budgets whose period covers `check_date` (a null `end_date`
counts as open-ended). -/
def get_current_budgets (st : List Budget) (user_id : Nat)
    (check_date : Int) : List Budget :=
  st.filter (fun b =>
    b.user_id == user_id && b.is_active &&
    decide (b.start_date ≤ check_date) &&
    (match b.end_date with
     | none => true
     | some d => decide (d ≥ check_date)))

/-- The dictionary built by `CRUDBudget.get_budget_performance`
(`crud_budget.py` lines 144–175). -/
structure BudgetPerformance where
  budget_id : Nat
  name : String
  amount : ℚ
  spent : ℚ
  remaining : ℚ
  percentage_used : ℚ
  status : String
  is_over_budget : Bool
  should_alert : Bool
  alert_threshold : ℚ
  currency : String
  period_type : String
  start_date : Int
  end_date : Option Int
  category_id : Option Nat
  deriving Repr, DecidableEq

/-- `CRUDBudget.get_budget_performance` (`crud_budget.py` lines 144–175). -/
def get_budget_performance (exps : List Expense) (b : Budget) :
    BudgetPerformance :=
  { budget_id := b.id, name := b.name, amount := b.amount,
    spent := b.get_spent_amount exps,
    remaining := b.get_remaining_amount exps,
    percentage_used := b.get_percentage_used exps,
    status := b.get_status exps,
    is_over_budget := b.is_over_budget exps,
    should_alert := b.should_alert exps,
    alert_threshold := b.alert_threshold,
    currency := b.currency, period_type := b.period_type,
    start_date := b.start_date, end_date := b.end_date,
    category_id := b.category_id }

/-- The dictionary returned by `CRUDBudget.get_budget_summary`
(`crud_budget.py` lines 208–218); the `status_counts` dict is carried as
its three entries. -/
structure BudgetSummary where
  total_budget : ℚ
  total_spent : ℚ
  total_remaining : ℚ
  overall_percentage : ℚ
  overall_status : String
  budget_count : Nat
  on_track_count : Nat
  warning_count : Nat
  over_budget_count : Nat
  budgets : List BudgetPerformance
  category_id : Option Nat
  deriving Repr, DecidableEq

/-- `CRUDBudget.get_budget_summary` (`crud_budget.py` lines 177–218): all
totals, counts and performances are computed over the current budgets, and
the final dictionary reads `current_budgets[0].category_id` — which raises
`IndexError` exactly when the current-budget list is empty (embedded as the
`.error` branch). -/
def get_budget_summary (st : List Budget) (exps : List Expense)
    (user_id : Nat) (check_date : Int) : Except String BudgetSummary :=
  let current_budgets := get_current_budgets st user_id check_date
  let total_budget := (current_budgets.map (fun b => b.amount)).sum
  let total_spent :=
    (current_budgets.map (fun b => b.get_spent_amount exps)).sum
  let budget_performances := current_budgets.map (get_budget_performance exps)
  let overall_percentage :=
    if total_budget > 0 then total_spent / total_budget * 100 else 0
  let overall_status :=
    if total_spent > total_budget then "over_budget"
    else if overall_percentage ≥ 80 then "warning"
    else "on_track"
  match current_budgets with
  | [] => .error "IndexError: list index out of range"
  | b0 :: _ =>
    .ok { total_budget := total_budget, total_spent := total_spent,
          total_remaining := total_budget - total_spent,
          overall_percentage := overall_percentage,
          overall_status := overall_status,
          budget_count := current_budgets.length,
          on_track_count := (budget_performances.filter
            (fun p => p.status == "on_track")).length,
          warning_count := (budget_performances.filter
            (fun p => p.status == "warning")).length,
          over_budget_count := (budget_performances.filter
            (fun p => p.status == "over_budget")).length,
          budgets := budget_performances,
          category_id := b0.category_id }

/-- C9: `get_budget_summary` requires at least one current budget — it
fails (with the embedded IndexError of `current_budgets[0]`) exactly when
the user's current-budget list is empty, instead of returning a zero-total
summary. -/
theorem claim_C9_summary_requires_current_budget (st : List Budget)
    (exps : List Expense) (user_id : Nat) (check_date : Int) :
    (∃ e, get_budget_summary st exps user_id check_date = .error e) ↔
      get_current_budgets st user_id check_date = [] := by
  unfold get_budget_summary
  cases h : get_current_budgets st user_id check_date with
  | nil => simp [h]
  | cons b0 t => simp [h]

/-- One subcategory bucket of `BudgetGroup.get_category_summary`
(`budget_group.py` lines 141–147). -/
structure SubcatEntry where
  categoryId : Nat
  categoryName : String
  budgeted : ℚ
  spent : ℚ
  remaining : ℚ
  deriving Repr, DecidableEq

/-- One main-category entry of `BudgetGroup.get_category_summary`
(`budget_group.py` lines 124–134); its `subcategories` dict is an
insertion-ordered association list. -/
structure MainCatEntry where
  categoryId : Nat
  categoryName : String
  budgeted : ℚ
  spent : ℚ
  remaining : ℚ
  total_budgeted : ℚ
  total_spent : ℚ
  total_remaining : ℚ
  subcategories : List (String × SubcatEntry)
  deriving Repr, DecidableEq

/-- Python-dict membership test (`k in d`) on an insertion-ordered
association list. -/
def alistHas {α : Type} (m : List (String × α)) (k : String) : Bool :=
  m.any (fun p => p.1 == k)

/-- Python-dict in-place update of the entry at a key (keys are unique by
construction, so updating the first occurrence is exact). -/
def alistUpdate {α : Type} (k : String) (f : α → α) :
    List (String × α) → List (String × α)
  | [] => []
  | (k', v) :: t =>
    if k' == k then (k', f v) :: t else (k', v) :: alistUpdate k f t

/-- The zero-initialised subcategory bucket (`budget_group.py`
lines 141–147). -/
def freshSubcat (cid : Nat) (n : String) : SubcatEntry :=
  { categoryId := cid, categoryName := n, budgeted := 0, spent := 0,
    remaining := 0 }

/-- The zero-initialised main-category entry (`budget_group.py`
lines 124–134). -/
def freshMainCat (cid : Nat) (n : String) : MainCatEntry :=
  { categoryId := cid, categoryName := n, budgeted := 0, spent := 0,
    remaining := 0, total_budgeted := 0, total_spent := 0,
    total_remaining := 0, subcategories := [] }

/-- The subcategory-bucket accumulation (`budget_group.py` lines 140–152):
create the bucket if absent, then add the amounts and recompute the
bucket's remaining. -/
def bump_subcat (subs : List (String × SubcatEntry)) (sn : String)
    (cid : Nat) (amt spent : ℚ) : List (String × SubcatEntry) :=
  alistUpdate sn (fun sc =>
    { sc with budgeted := sc.budgeted + amt, spent := sc.spent + spent,
              remaining := (sc.budgeted + amt) - (sc.spent + spent) })
    (if alistHas subs sn then subs else subs ++ [(sn, freshSubcat cid sn)])

/-- The subcategory branch of the summary loop (`budget_group.py`
lines 138–156 and 167–168): accumulate into the bucket and into the
parent's totals only, then recompute the parent's total remaining. -/
def subcat_case (mc : MainCatEntry) (sn : String) (cid : Nat)
    (amt spent : ℚ) : MainCatEntry :=
  { mc with
    subcategories := bump_subcat mc.subcategories sn cid amt spent,
    total_budgeted := mc.total_budgeted + amt,
    total_spent := mc.total_spent + spent,
    total_remaining := (mc.total_budgeted + amt) - (mc.total_spent + spent) }

/-- The main-category branch of the summary loop (`budget_group.py`
lines 157–168): accumulate into the entry's own figures and its totals,
recomputing both remainings. -/
def maincat_case (mc : MainCatEntry) (amt spent : ℚ) : MainCatEntry :=
  { mc with
    budgeted := mc.budgeted + amt,
    spent := mc.spent + spent,
    remaining := (mc.budgeted + amt) - (mc.spent + spent),
    total_budgeted := mc.total_budgeted + amt,
    total_spent := mc.total_spent + spent,
    total_remaining := (mc.total_budgeted + amt) - (mc.total_spent + spent) }

/-- One iteration of `BudgetGroup.get_category_summary`'s loop
(`budget_group.py` lines 103–168): skip inactive or category-less budgets,
resolve whether the category is primary or a child (a child with a
dangling parent goes under "Uncategorized"), create the main entry if
absent, then accumulate through the matching branch. -/
def summary_step (cats : List Category) (exps : List Expense)
    (acc : List (String × MainCatEntry)) (b : Budget) :
    List (String × MainCatEntry) :=
  if !b.is_active then acc
  else
    match b.category_id.bind (findCategory cats) with
    | none => acc
    | some category =>
      let spent := b.get_spent_amount exps
      let parent := category.parent_id.bind (findCategory cats)
      let main_category_name :=
        if category.is_primary_category then category.name
        else match parent with
          | some p => p.name
          | none => "Uncategorized"
      let subcategory_name :=
        if category.is_primary_category then none else some category.name
      let main_category_id :=
        match parent with
        | some p => p.id
        | none => category.id
      let acc1 :=
        if alistHas acc main_category_name then acc
        else acc ++ [(main_category_name,
          freshMainCat main_category_id main_category_name)]
      alistUpdate main_category_name (fun mc =>
        match subcategory_name with
        | some sn => subcat_case mc sn category.id b.amount spent
        | none => maincat_case mc b.amount spent) acc1

/-- `BudgetGroup.get_category_summary` (`budget_group.py` lines 95–170),
over the group's member budgets. -/
def get_category_summary (cats : List Category) (exps : List Expense)
    (budgets : List Budget) : List (String × MainCatEntry) :=
  budgets.foldl (summary_step cats exps) []

/-- The per-entry bookkeeping invariant of the category summary. -/
def mainEntryInv (mc : MainCatEntry) : Prop :=
  mc.total_budgeted =
    mc.budgeted + ((mc.subcategories.map (fun q => q.2.budgeted)).sum) ∧
  mc.total_spent =
    mc.spent + ((mc.subcategories.map (fun q => q.2.spent)).sum) ∧
  mc.remaining = mc.budgeted - mc.spent ∧
  mc.total_remaining = mc.total_budgeted - mc.total_spent ∧
  ∀ q ∈ mc.subcategories, q.2.remaining = q.2.budgeted - q.2.spent

/-- A per-entry predicate survives the dict update when the update
function preserves it. -/
theorem alistUpdate_forall {α : Type} (P : α → Prop) (k : String)
    (f : α → α) (hf : ∀ v, P v → P (f v)) :
    ∀ m : List (String × α), (∀ p ∈ m, P p.2) →
      ∀ p ∈ alistUpdate k f m, P p.2 := by
  intro m
  induction m with
  | nil => intro _ p hp; cases hp
  | cons q t ih =>
    intro h p hp
    obtain ⟨k', v⟩ := q
    simp only [alistUpdate] at hp
    by_cases hk : (k' == k) = true
    · rw [if_pos hk] at hp
      rcases List.mem_cons.mp hp with rfl | hp
      · exact hf v (h (k', v) (List.mem_cons_self _ _))
      · exact h p (List.mem_cons_of_mem _ hp)
    · rw [if_neg hk] at hp
      rcases List.mem_cons.mp hp with rfl | hp
      · exact h (k', v) (List.mem_cons_self _ _)
      · exact ih (fun q hq => h q (List.mem_cons_of_mem _ hq)) p hp

/-- A key just appended is present in the dict. -/
theorem alistHas_append_self {α : Type} (m : List (String × α)) (k : String)
    (v : α) : alistHas (m ++ [(k, v)]) k = true := by
  simp [alistHas, List.any_append]

/-- Updating a present key through a function that shifts a projection by
`d` shifts the projection's sum over the dict by `d`. -/
theorem alistUpdate_sum {α : Type} (g : α → ℚ) (d : ℚ) (k : String)
    (f : α → α) (hf : ∀ v, g (f v) = g v + d) :
    ∀ m : List (String × α), alistHas m k = true →
      ((alistUpdate k f m).map (fun p => g p.2)).sum =
        ((m.map (fun p => g p.2)).sum) + d := by
  intro m
  induction m with
  | nil => intro h; simp [alistHas] at h
  | cons q t ih =>
    intro h
    obtain ⟨k', v⟩ := q
    simp only [alistUpdate]
    by_cases hk : (k' == k) = true
    · rw [if_pos hk]
      simp only [List.map_cons, List.sum_cons, hf v]
      ring
    · rw [if_neg hk]
      have ht : alistHas t k = true := by
        simp only [alistHas, List.any_cons, Bool.or_eq_true] at h
        rcases h with h | h
        · exact absurd h hk
        · exact h
      simp only [List.map_cons, List.sum_cons, ih ht]
      ring

/-- The bucket accumulation adds exactly the budget amount to the sum of
the subcategory buckets' budgeted figures. -/
theorem bump_subcat_sum_budgeted (subs : List (String × SubcatEntry))
    (sn : String) (cid : Nat) (amt spent : ℚ) :
    ((bump_subcat subs sn cid amt spent).map (fun q => q.2.budgeted)).sum =
      ((subs.map (fun q => q.2.budgeted)).sum) + amt := by
  unfold bump_subcat
  by_cases h : alistHas subs sn = true
  · rw [if_pos h]
    exact alistUpdate_sum _ amt sn _ (fun v => rfl) subs h
  · rw [if_neg h]
    rw [alistUpdate_sum _ amt sn _ (fun v => rfl) _
      (alistHas_append_self subs sn _)]
    simp [freshSubcat]

/-- The bucket accumulation adds exactly the budget's spend to the sum of
the subcategory buckets' spent figures. -/
theorem bump_subcat_sum_spent (subs : List (String × SubcatEntry))
    (sn : String) (cid : Nat) (amt spent : ℚ) :
    ((bump_subcat subs sn cid amt spent).map (fun q => q.2.spent)).sum =
      ((subs.map (fun q => q.2.spent)).sum) + spent := by
  unfold bump_subcat
  by_cases h : alistHas subs sn = true
  · rw [if_pos h]
    exact alistUpdate_sum _ spent sn _ (fun v => rfl) subs h
  · rw [if_neg h]
    rw [alistUpdate_sum _ spent sn _ (fun v => rfl) _
      (alistHas_append_self subs sn _)]
    simp [freshSubcat]

/-- Every bucket keeps `remaining = budgeted - spent` through the bucket
accumulation. -/
theorem bump_subcat_remaining (subs : List (String × SubcatEntry))
    (sn : String) (cid : Nat) (amt spent : ℚ)
    (h : ∀ q ∈ subs, q.2.remaining = q.2.budgeted - q.2.spent) :
    ∀ q ∈ bump_subcat subs sn cid amt spent,
      q.2.remaining = q.2.budgeted - q.2.spent := by
  unfold bump_subcat
  have hbase : ∀ q ∈ (if alistHas subs sn = true then subs
      else subs ++ [(sn, freshSubcat cid sn)]),
      q.2.remaining = q.2.budgeted - q.2.spent := by
    by_cases hh : alistHas subs sn = true
    · rw [if_pos hh]; exact h
    · rw [if_neg hh]
      intro q hq
      rcases List.mem_append.mp hq with hq | hq
      · exact h q hq
      · simp only [List.mem_singleton] at hq
        subst hq
        simp [freshSubcat]
  exact alistUpdate_forall
    (fun sc : SubcatEntry => sc.remaining = sc.budgeted - sc.spent)
    sn _ (fun v _ => rfl) _ hbase

/-- The subcategory branch preserves the bookkeeping invariant. -/
theorem subcat_case_inv (mc : MainCatEntry) (sn : String) (cid : Nat)
    (amt spent : ℚ) (h : mainEntryInv mc) :
    mainEntryInv (subcat_case mc sn cid amt spent) := by
  obtain ⟨h1, h2, h3, h4, h5⟩ := h
  refine ⟨?_, ?_, h3, rfl, bump_subcat_remaining _ _ _ _ _ h5⟩
  · simp only [subcat_case]
    rw [bump_subcat_sum_budgeted, h1]
    ring
  · simp only [subcat_case]
    rw [bump_subcat_sum_spent, h2]
    ring

/-- The main-category branch preserves the bookkeeping invariant. -/
theorem maincat_case_inv (mc : MainCatEntry) (amt spent : ℚ)
    (h : mainEntryInv mc) : mainEntryInv (maincat_case mc amt spent) := by
  obtain ⟨h1, h2, h3, h4, h5⟩ := h
  refine ⟨?_, ?_, rfl, rfl, h5⟩
  · simp only [maincat_case]
    rw [h1]
    ring
  · simp only [maincat_case]
    rw [h2]
    ring

/-- A freshly created main-category entry satisfies the invariant. -/
theorem freshMainCat_inv (cid : Nat) (n : String) :
    mainEntryInv (freshMainCat cid n) := by
  refine ⟨by simp [freshMainCat], by simp [freshMainCat],
    by simp [freshMainCat], by simp [freshMainCat], ?_⟩
  intro q hq
  simp [freshMainCat] at hq

/-- One summary iteration preserves the invariant for every entry. -/
theorem summary_step_inv (cats : List Category) (exps : List Expense)
    (acc : List (String × MainCatEntry)) (b : Budget)
    (h : ∀ p ∈ acc, mainEntryInv p.2) :
    ∀ p ∈ summary_step cats exps acc b, mainEntryInv p.2 := by
  unfold summary_step
  by_cases hact : (!b.is_active) = true
  · rw [if_pos hact]; exact h
  · rw [if_neg hact]
    cases hcat : b.category_id.bind (findCategory cats) with
    | none => exact h
    | some category =>
      apply alistUpdate_forall mainEntryInv _ _ ?_ _ ?_
      · intro v hv
        cases hsub : (if category.is_primary_category then none
            else some category.name) with
        | none => exact maincat_case_inv v _ _ hv
        | some sn => exact subcat_case_inv v sn _ _ _ hv
      · by_cases hhas : alistHas acc (if category.is_primary_category then
            category.name
          else match category.parent_id.bind (findCategory cats) with
            | some p => p.name
            | none => "Uncategorized") = true
        · rw [if_pos hhas]; exact h
        · rw [if_neg hhas]
          intro p hp
          rcases List.mem_append.mp hp with hp | hp
          · exact h p hp
          · simp only [List.mem_singleton] at hp
            subst hp
            exact freshMainCat_inv _ _

/-- The whole summary loop preserves the invariant. -/
theorem summary_fold_inv (cats : List Category) (exps : List Expense) :
    ∀ (budgets : List Budget) (acc : List (String × MainCatEntry)),
      (∀ p ∈ acc, mainEntryInv p.2) →
      ∀ p ∈ budgets.foldl (summary_step cats exps) acc,
        mainEntryInv p.2 := by
  intro budgets
  induction budgets with
  | nil => intro acc h; simpa using h
  | cons b t ih =>
    intro acc h
    simp only [List.foldl_cons]
    exact ih _ (summary_step_inv cats exps acc b h)

/-- C4: in every category summary produced by `get_category_summary`,
every main-category entry satisfies
`total_budgeted = budgeted + Σ subcategory budgeted`,
`total_spent = spent + Σ subcategory spent` (so subcategory budgets reach
the parent's totals but never its own `budgeted`/`spent`), and every
remaining field is the corresponding budgeted minus spent. -/
theorem claim_C4_category_summary_invariant (cats : List Category)
    (exps : List Expense) (budgets : List Budget) :
    ∀ p ∈ get_category_summary cats exps budgets,
      p.2.total_budgeted =
        p.2.budgeted + ((p.2.subcategories.map (fun q => q.2.budgeted)).sum) ∧
      p.2.total_spent =
        p.2.spent + ((p.2.subcategories.map (fun q => q.2.spent)).sum) ∧
      p.2.remaining = p.2.budgeted - p.2.spent ∧
      p.2.total_remaining = p.2.total_budgeted - p.2.total_spent ∧
      ∀ q ∈ p.2.subcategories,
        q.2.remaining = q.2.budgeted - q.2.spent := by
  intro p hp
  exact summary_fold_inv cats exps budgets []
    (by intro q hq; cases hq) p hp

/-- A subcategory of `foodCategory`, for the C4 witness run. -/
def snacksCategory : Category :=
  { id := 3, name := "Snacks", parent_id := some 2, user_id := 1,
    sort_order := 1, is_active := true }

/-- The categories of the C4 witness run. -/
def c4cats : List Category := [foodCategory, snacksCategory]

/-- The group budgets of the C4 witness run: 30 on the primary category
and 20 on its subcategory. -/
def c4budgets : List Budget :=
  [generated_budget groupMarch 1 foodCategory 30,
   generated_budget groupMarch 1 snacksCategory 20]

/-- The main-category entry the C4 witness run produces. -/
def c4foodEntry : MainCatEntry :=
  { categoryId := 2, categoryName := "Food", budgeted := 30, spent := 0,
    remaining := 30, total_budgeted := 50, total_spent := 0,
    total_remaining := 50,
    subcategories := [("Snacks",
      { categoryId := 3, categoryName := "Snacks", budgeted := 20,
        spent := 0, remaining := 20 })] }

/-- Witness for C4 at the concrete two-budget run: the "Food" entry is in
the summary and satisfies the invariant. -/
theorem claim_C4_category_summary_invariant_witness :
    ("Food", c4foodEntry) ∈ get_category_summary c4cats [] c4budgets ∧
    (c4foodEntry.total_budgeted = c4foodEntry.budgeted +
        ((c4foodEntry.subcategories.map (fun q => q.2.budgeted)).sum) ∧
      c4foodEntry.total_spent = c4foodEntry.spent +
        ((c4foodEntry.subcategories.map (fun q => q.2.spent)).sum) ∧
      c4foodEntry.remaining = c4foodEntry.budgeted - c4foodEntry.spent ∧
      c4foodEntry.total_remaining =
        c4foodEntry.total_budgeted - c4foodEntry.total_spent ∧
      ∀ q ∈ c4foodEntry.subcategories,
        q.2.remaining = q.2.budgeted - q.2.spent) := by
  have hev : get_category_summary c4cats [] c4budgets = [("Food", c4foodEntry)] := by
    simp [get_category_summary, summary_step, c4cats, c4budgets,
      generated_budget, groupMarch, foodCategory, snacksCategory,
      findCategory, Category.is_primary_category, alistHas, alistUpdate,
      bump_subcat, subcat_case, maincat_case, freshMainCat, freshSubcat,
      Budget.get_spent_amount, c4foodEntry]
    norm_num
  have hmem : ("Food", c4foodEntry) ∈ get_category_summary c4cats [] c4budgets := by
    rw [hev]
    exact List.mem_singleton.mpr rfl
  exact ⟨hmem, claim_C4_category_summary_invariant c4cats [] c4budgets
    ("Food", c4foodEntry) hmem⟩

/-- One converted subcategory dict of `get_budget_group_summary`
(`crud_budget_group.py` lines 294–305). -/
structure SubcatOut where
  categoryId : Nat
  categoryName : String
  budgeted : ℚ
  spent : ℚ
  remaining : ℚ
  percentage_used : ℚ
  deriving Repr, DecidableEq

/-- The keyword arguments `get_budget_group_summary` passes to the
`CategorySummary` schema constructor (`crud_budget_group.py`
lines 307–319).  The pydantic schema (`schemas/budget_group.py`
lines 181–197) declares `total_budgeted`, `total_spent`, `total_remaining`
and `total_percentage_used` with default `None`, and has no
`main_category_budgeted` field (that extra keyword is silently ignored at
validation); the conversion passes none of the `total_*` keywords. -/
structure CategorySummaryOut where
  categoryId : Nat
  categoryName : String
  budgeted : ℚ
  spent : ℚ
  remaining : ℚ
  percentage_used : Option ℚ
  total_budgeted : Option ℚ
  total_spent : Option ℚ
  total_remaining : Option ℚ
  total_percentage_used : Option ℚ
  main_category_budgeted : ℚ
  subcategories : List (String × SubcatOut)
  deriving Repr, DecidableEq

/-- The subcategory conversion (`crud_budget_group.py` lines 294–305). -/
def convert_subcat (sc : SubcatEntry) : SubcatOut :=
  { categoryId := sc.categoryId, categoryName := sc.categoryName,
    budgeted := sc.budgeted, spent := sc.spent, remaining := sc.remaining,
    percentage_used :=
      if sc.budgeted > 0 then sc.spent / sc.budgeted * 100 else 0 }

/-- The per-category conversion (`crud_budget_group.py` lines 307–319):
copies the raw entry's own figures, computes `percentage_used`, reads
`main_category_budgeted` with `.get("main_category_budgeted", 0)` from a
dict whose entries never carry that key (so it is always 0), and never
copies the raw `total_budgeted`/`total_spent`/`total_remaining` values —
the schema's `None` defaults stand. -/
def convert_category_summary (mc : MainCatEntry) : CategorySummaryOut :=
  { categoryId := mc.categoryId, categoryName := mc.categoryName,
    budgeted := mc.budgeted, spent := mc.spent, remaining := mc.remaining,
    percentage_used :=
      some (if mc.budgeted > 0 then mc.spent / mc.budgeted * 100 else 0),
    total_budgeted := none, total_spent := none, total_remaining := none,
    total_percentage_used := none,
    main_category_budgeted := 0,
    subcategories := mc.subcategories.map (fun p => (p.1, convert_subcat p.2)) }

/-- The `budgets` relationship of a group, recovered from the budget
table. -/
def group_budgets (st : List Budget) (gid : Nat) : List Budget :=
  st.filter (fun b => b.budget_group_id == some gid)

/-- `BudgetGroup.total_budgeted_amount` (`budget_group.py` lines 56–60). -/
def total_budgeted_amount (budgets : List Budget) : ℚ :=
  ((budgets.filter (fun b => b.is_active)).map (fun b => b.amount)).sum

/-- `BudgetGroup.get_total_spent_amount` (`budget_group.py`
lines 62–68). -/
def get_total_spent_amount (budgets : List Budget) (exps : List Expense) :
    ℚ :=
  ((budgets.filter (fun b => b.is_active)).map
    (fun b => b.get_spent_amount exps)).sum

/-- `BudgetGroup.get_percentage_used` (`budget_group.py` lines 74–80). -/
def group_percentage_used (budgets : List Budget) (exps : List Expense) :
    ℚ :=
  if total_budgeted_amount budgets = 0 then 0
  else get_total_spent_amount budgets exps / total_budgeted_amount budgets
    * 100

/-- `BudgetGroup.get_status` (`budget_group.py` lines 82–93); the group
level hardcodes the 80% threshold. -/
def group_status (budgets : List Budget) (exps : List Expense) : String :=
  if get_total_spent_amount budgets exps > total_budgeted_amount budgets
  then "over_budget"
  else if group_percentage_used budgets exps ≥ 80 then "warning"
  else "on_track"

/-- The `BudgetGroupSummary` shape built by `get_budget_group_summary`
(`crud_budget_group.py` lines 321–330). -/
structure BudgetGroupSummaryOut where
  total_budgeted : ℚ
  total_spent : ℚ
  total_remaining : ℚ
  percentage_used : ℚ
  status : String
  budget_count : Nat
  category_summaries : List (String × CategorySummaryOut)
  deriving Repr, DecidableEq

/-- `CRUDBudgetGroup.get_budget_group_summary` (`crud_budget_group.py`
lines 263–330): `get_with_budgets` resolves the group by id and owner
(`None` when missing or not owned), then the totals, status and converted
category summaries are assembled. -/
def get_budget_group_summary (groups : List BudgetGroup) (st : List Budget)
    (cats : List Category) (exps : List Expense)
    (budget_group_id user_id : Nat) : Option BudgetGroupSummaryOut :=
  match groups.find? (fun g =>
      g.id == budget_group_id && g.user_id == user_id) with
  | none => none
  | some g =>
    some { total_budgeted := total_budgeted_amount (group_budgets st g.id),
           total_spent := get_total_spent_amount (group_budgets st g.id) exps,
           total_remaining := total_budgeted_amount (group_budgets st g.id) -
             get_total_spent_amount (group_budgets st g.id) exps,
           percentage_used :=
             group_percentage_used (group_budgets st g.id) exps,
           status := group_status (group_budgets st g.id) exps,
           budget_count :=
             ((group_budgets st g.id).filter (fun b => b.is_active)).length,
           category_summaries :=
             (get_category_summary cats exps (group_budgets st g.id)).map
               (fun p => (p.1, convert_category_summary p.2)) }

/-- C10: in every summary returned by `get_budget_group_summary`, every
per-category `CategorySummary` has `total_budgeted`, `total_spent`,
`total_remaining` and `total_percentage_used` equal to `None` and
`main_category_budgeted` equal to 0 — the conversion reads the
never-produced `main_category_budgeted` key (defaulting to 0) and never
copies the totals `get_category_summary` computed. -/
theorem claim_C10_summary_conversion_drops_totals
    (groups : List BudgetGroup) (st : List Budget) (cats : List Category)
    (exps : List Expense) (budget_group_id user_id : Nat)
    (s : BudgetGroupSummaryOut)
    (hs : get_budget_group_summary groups st cats exps budget_group_id
      user_id = some s) :
    ∀ p ∈ s.category_summaries,
      p.2.total_budgeted = none ∧ p.2.total_spent = none ∧
      p.2.total_remaining = none ∧ p.2.total_percentage_used = none ∧
      p.2.main_category_budgeted = 0 := by
  unfold get_budget_group_summary at hs
  cases hf : groups.find? (fun g =>
      g.id == budget_group_id && g.user_id == user_id) with
  | none => rw [hf] at hs; cases hs
  | some g =>
    rw [hf] at hs
    cases hs
    intro p hp
    simp only at hp
    obtain ⟨q, hq, rfl⟩ := List.mem_map.mp hp
    exact ⟨rfl, rfl, rfl, rfl, rfl⟩

/-- The converted "Snacks" bucket of the concrete C10 run. -/
def c10snacks : SubcatOut :=
  { categoryId := 3, categoryName := "Snacks", budgeted := 20, spent := 0,
    remaining := 20, percentage_used := 0 }

/-- The converted "Food" category summary of the concrete C10 run. -/
def c10food : CategorySummaryOut :=
  { categoryId := 2, categoryName := "Food", budgeted := 30, spent := 0,
    remaining := 30, percentage_used := some 0, total_budgeted := none,
    total_spent := none, total_remaining := none,
    total_percentage_used := none, main_category_budgeted := 0,
    subcategories := [("Snacks", c10snacks)] }

/-- The full summary of the concrete C10 run. -/
def c10summary : BudgetGroupSummaryOut :=
  { total_budgeted := 50, total_spent := 0, total_remaining := 50,
    percentage_used := 0, status := "on_track", budget_count := 2,
    category_summaries := [("Food", c10food)] }

/-- Witness for C10 at the "Food" entry of the concrete group run of C4's
data. -/
theorem claim_C10_summary_conversion_drops_totals_witness :
    ("Food", c10food) ∈ c10summary.category_summaries ∧
    (c10food.total_budgeted = none ∧ c10food.total_spent = none ∧
      c10food.total_remaining = none ∧
      c10food.total_percentage_used = none ∧
      c10food.main_category_budgeted = 0) := by
  have hmem : ("Food", c10food) ∈ c10summary.category_summaries := by
    simp [c10summary]
  refine ⟨hmem, ?_⟩
  exact claim_C10_summary_conversion_drops_totals [groupMarch] c4budgets
    c4cats [] 1 1 c10summary (by
      simp [get_budget_group_summary, group_budgets, total_budgeted_amount,
        get_total_spent_amount, group_percentage_used, group_status,
        get_category_summary, summary_step, c4cats, c4budgets,
        generated_budget, groupMarch, foodCategory, snacksCategory,
        findCategory, Category.is_primary_category, alistHas, alistUpdate,
        bump_subcat, subcat_case, maincat_case, freshMainCat, freshSubcat,
        Budget.get_spent_amount, convert_category_summary, convert_subcat,
        c10summary, c10food, c10snacks]
      norm_num) ("Food", c10food) hmem

end Spendly
